import Mathlib

/-!
A shallow embedding of the token-lifecycle and request-retry core of the
TreolanAPI proxy (src/index.js and its variants src/unnamed/part_000,
part_001, part_002): the in-memory token cache, `getToken`, and the
authenticated request helper `treolan`.

Modelling conventions:
  * The mutable module state (`cachedToken`, `tokenExpires`) is the explicit
    record `St`, threaded through every operation.
  * `Date.now()` is a parameter `now : Nat` (milliseconds), held fixed for
    the duration of one operation.
  * The network is an oracle: a list of `FetchResult` values consumed one per
    `fetch` call, in program order.  Running out of scripted responses is
    modelled as a rejected fetch.  Each operation reports the remaining
    oracle and the number of fetches it performed, so "performs zero network
    calls" is the statement `fetches = 0` (equivalently, the oracle is
    returned unchanged).
  * `JSON.parse` / `res.json()` are modelled by `jsonParse`, a parser for the
    fragment of JSON the token exchange actually traffics in: flat objects
    with string values, and bare string literals, both without escape
    sequences.  Any other body is modelled as a parse failure.
  * Every `throw new Error(...)` site in the source has its own `JsError`
    constructor carrying the data interpolated into the message.
-/

/-- Process-wide mutable token state: `let cachedToken = null; let tokenExpires = 0;`. -/
structure St where
  cachedToken : Option String
  tokenExpires : Nat
deriving DecidableEq

/-- The configured credential (`TREOLAN_LOGIN` / `TREOLAN_PASSWORD`, defaulting
to the empty string when the environment variable is unset). -/
structure Config where
  login : String
  password : String
deriving DecidableEq

/-- One upstream HTTP response: `res.status` and the body text `await res.text()`. -/
structure Response where
  status : Nat
  body : String
deriving DecidableEq

/-- Outcome of one `fetch`: either a response, or the promise rejects
(network error) with a message. -/
inductive FetchResult where
  | resp : Response → FetchResult
  | err : String → FetchResult
deriving DecidableEq

/-- One constructor per `throw new Error(...)` site in the source, carrying the
data the source interpolates into the message. -/
inductive JsError where
  /-- index.js line 20 / part_000 line 17: credentials missing. -/
  | configError (msg : String)
  /-- index.js line 67: all candidate auth paths exhausted; carries `lastError`. -/
  | tokenNotObtained (lastError : String)
  /-- part_000 line 25 / part_001 line 41: auth endpoint returned non-success. -/
  | authError (status : Nat) (body : String)
  /-- part_000 line 35 / part_001 line 55: no plausible token in the auth response. -/
  | tokenNotFound (body : String)
  /-- gateway: `Treolan ${res.status}: ${await res.text()}`. -/
  | treolanError (status : Nat) (body : String)
  /-- gateway: `res.json()` on a body that is not valid JSON. -/
  | badJson (body : String)
  /-- an uncaught `fetch` rejection propagating out of `treolan`. -/
  | fetchFailed (msg : String)
deriving DecidableEq

/-- Parsed JSON, restricted to the shapes the token exchange uses: a bare
string, or a flat object whose values are strings. -/
inductive Json where
  | str : String → Json
  | obj : List (String × String) → Json
deriving DecidableEq

def lbrace : Char := Char.ofNat 123
def rbrace : Char := Char.ofNat 125

/-- Scan the remainder of a JSON string literal (no escapes): consume up to
the closing quote, returning the contents and the rest of the input. -/
def scanStr : List Char → Option (String × List Char)
  | [] => none
  | c :: rest =>
    if c = '"' then some ("", rest)
    else
      match scanStr rest with
      | some (s, r) => some (c.toString ++ s, r)
      | none => none

/-- Parse a JSON string literal starting at the opening quote. -/
def parseStrLit : List Char → Option (String × List Char)
  | '"' :: rest => scanStr rest
  | _ => none

/-- Parse the members of a flat string-valued JSON object, after the opening
brace.  The fuel is bounded by the input length. -/
def parseMembers : Nat → List Char → Option (List (String × String) × List Char)
  | 0, _ => none
  | fuel + 1, l =>
    match parseStrLit l with
    | none => none
    | some (k, l1) =>
      match l1 with
      | ':' :: l2 =>
        match parseStrLit l2 with
        | none => none
        | some (v, l3) =>
          match l3 with
          | ',' :: l4 =>
            match parseMembers fuel l4 with
            | some (kvs, l5) => some ((k, v) :: kvs, l5)
            | none => none
          | c :: l4 => if c = rbrace then some ([(k, v)], l4) else none
          | [] => none
      | _ => none

/-- Model of `JSON.parse` restricted to the token-exchange fragment: a flat
object of string fields, or a bare string literal.  `none` models a thrown
`SyntaxError`. -/
def jsonParse (s : String) : Option Json :=
  match s.data with
  | [] => none
  | c :: rest =>
    if c = lbrace then
      if rest = [rbrace] then some (.obj [])
      else
        match parseMembers rest.length rest with
        | some (kvs, []) => some (.obj kvs)
        | _ => none
    else
      match parseStrLit (c :: rest) with
      | some (s', []) => some (.str s')
      | _ => none

/-- Property access `data.k` on a parsed object: `none` models `undefined`. -/
def jfield (kvs : List (String × String)) (k : String) : Option String :=
  kvs.lookup k

/-- JavaScript `a || b` specialised to optional strings: `a` when it is
present and truthy (non-empty), otherwise `b`. -/
def orTruthy (a b : Option String) : Option String :=
  match a with
  | some v => if v ≠ "" then some v else b
  | none => b

/-- index.js lines 49-51: `data.token || data.accessToken || data.access_token
|| data.bearerToken || data.jwt || data.result || (typeof data === 'string' ?
data : null)`.  Field access on a bare string is `undefined`, so only the
final fallback fires there. -/
def extractToken : Json → Option String
  | .obj kvs =>
    orTruthy (jfield kvs "token")
      (orTruthy (jfield kvs "accessToken")
        (orTruthy (jfield kvs "access_token")
          (orTruthy (jfield kvs "bearerToken")
            (orTruthy (jfield kvs "jwt") (jfield kvs "result")))))
  | .str s => some s

/-- part_000 line 30: `data.token || data.accessToken || data.access_token ||
data.result` — no bare-string fallback. -/
def extractToken000 : Json → Option String
  | .obj kvs =>
    orTruthy (jfield kvs "token")
      (orTruthy (jfield kvs "accessToken")
        (orTruthy (jfield kvs "access_token") (jfield kvs "result")))
  | .str _ => none

/-- Model of `res.ok`: status in the 2xx range. -/
def resOk (s : Nat) : Bool := 200 ≤ s && s < 300

/-- Consume one scripted fetch outcome; an exhausted script is a rejected fetch. -/
def pullFetch : List FetchResult → FetchResult × List FetchResult
  | [] => (.err "fetch failed: no response", [])
  | fr :: rest => (fr, rest)

deriving instance DecidableEq for Except

/-- The result of `getToken`: outcome, final state, remaining network oracle,
and how many fetches were performed. -/
structure TokRes where
  result : Except JsError String
  st : St
  env : List FetchResult
  fetches : Nat
deriving DecidableEq

/-- Count one more fetch in a loop continuation. -/
def bump (r : TokRes) : TokRes := ⟨r.result, r.st, r.env, r.fetches + 1⟩

/-- index.js lines 42-43 and 63: the `lastError` text set for a failed attempt
on `path` that produced a response with the given status. -/
def attemptMsg (path : String) (status : Nat) : String :=
  path ++ " → " ++ toString status

/-- index.js lines 25-31: the fixed ordered list of candidate auth paths. -/
def authUrls : List String :=
  ["/Auth/GetToken", "/Auth/Login", "/Auth/Token", "/Account/GetToken", "/Account/Login"]

/-- index.js lines 33-65: the `for (const path of authUrls)` loop.  Each
iteration fetches once; a recognised token (parsed, string, length > 10) is
cached with expiry `now + 55*60*1000` and returned at once; otherwise
`lastError` is updated (except the `continue` on a JSON parse failure, which
leaves it unchanged) and the next path is tried; an exhausted list throws
carrying `lastError`. -/
def getTokenLoop (now : Nat) (st : St) : List String → List FetchResult → String → TokRes
  | [], env, lastError => ⟨.error (.tokenNotObtained lastError), st, env, 0⟩
  | p :: ps, env, lastError =>
    match pullFetch env with
    | (.err e, env') =>
      bump (getTokenLoop now st ps env' (p ++ " → " ++ e))
    | (.resp res, env') =>
      if resOk res.status then
        match jsonParse res.body with
        | none => bump (getTokenLoop now st ps env' lastError)
        | some data =>
          match extractToken data with
          | some t =>
            if t ≠ "" ∧ 10 < t.length then
              ⟨.ok t, ⟨some t, now + 55 * 60 * 1000⟩, env', 1⟩
            else
              bump (getTokenLoop now st ps env' (attemptMsg p res.status))
          | none => bump (getTokenLoop now st ps env' (attemptMsg p res.status))
      else
        bump (getTokenLoop now st ps env' (attemptMsg p res.status))

/-- index.js lines 19-67: the body of `getToken` past the cache check —
credential check, then the candidate-path loop with `lastError = ''`. -/
def getTokenAuth (cfg : Config) (now : Nat) (st : St) (env : List FetchResult) : TokRes :=
  if cfg.login = "" ∨ cfg.password = "" then
    ⟨.error (.configError "TREOLAN_LOGIN и TREOLAN_PASSWORD не заданы в Variables"), st, env, 0⟩
  else
    getTokenLoop now st authUrls env ""

/-- index.js `getToken`: `if (cachedToken && Date.now() < tokenExpires) return
cachedToken;` then authenticate. -/
def getToken (cfg : Config) (now : Nat) (st : St) (env : List FetchResult) : TokRes :=
  match st.cachedToken with
  | some t =>
    if t ≠ "" ∧ now < st.tokenExpires then ⟨.ok t, st, env, 0⟩
    else getTokenAuth cfg now st env
  | none => getTokenAuth cfg now st env

/-- part_000 line 32 / part_001 line 52: `text.trim().replace(/^"|"$/g, '')` —
drop one leading and one trailing quote. -/
def stripQuotes (s : String) : String :=
  let s1 := if s.startsWith "\"" then s.drop 1 else s
  if s1.endsWith "\"" then s1.dropRight 1 else s1

/-- part_000 lines 15-40: single-endpoint `getToken` — cache check, credential
check, one fetch of `/auth/token`, non-success throws an auth error, then
token extraction (JSON field chain, or quote-stripped raw text when
`JSON.parse` throws), a `< 10` length floor, cache and return. -/
def getToken000 (cfg : Config) (now : Nat) (st : St) (env : List FetchResult) : TokRes :=
  match st.cachedToken with
  | some t =>
    if t ≠ "" ∧ now < st.tokenExpires then ⟨.ok t, st, env, 0⟩
    else getToken000Auth cfg now st env
  | none => getToken000Auth cfg now st env
where
  getToken000Auth (cfg : Config) (now : Nat) (st : St) (env : List FetchResult) : TokRes :=
    if cfg.login = "" ∨ cfg.password = "" then
      ⟨.error (.configError "TREOLAN_LOGIN и TREOLAN_PASSWORD не заданы"), st, env, 0⟩
    else
      match pullFetch env with
      | (.err e, env') => ⟨.error (.fetchFailed e), st, env', 1⟩
      | (.resp res, env') =>
        if resOk res.status then
          let token : Option String :=
            match jsonParse res.body with
            | some data => extractToken000 data
            | none => some (stripQuotes res.body.trim)
          match token with
          | some t =>
            if t = "" ∨ t.length < 10 then ⟨.error (.tokenNotFound res.body), st, env', 1⟩
            else ⟨.ok t, ⟨some t, now + 55 * 60 * 1000⟩, env', 1⟩
          | none => ⟨.error (.tokenNotFound res.body), st, env', 1⟩
        else ⟨.error (.authError res.status res.body), st, env', 1⟩

/-- part_001 lines 25-61: like part_000 but with the full field chain of
index.js (including the bare-string fallback) and the same `< 10` floor. -/
def getToken001 (cfg : Config) (now : Nat) (st : St) (env : List FetchResult) : TokRes :=
  match st.cachedToken with
  | some t =>
    if t ≠ "" ∧ now < st.tokenExpires then ⟨.ok t, st, env, 0⟩
    else getToken001Auth cfg now st env
  | none => getToken001Auth cfg now st env
where
  getToken001Auth (cfg : Config) (now : Nat) (st : St) (env : List FetchResult) : TokRes :=
    if cfg.login = "" ∨ cfg.password = "" then
      ⟨.error (.configError "TREOLAN_LOGIN и TREOLAN_PASSWORD не заданы в Variables"), st, env, 0⟩
    else
      match pullFetch env with
      | (.err e, env') => ⟨.error (.fetchFailed e), st, env', 1⟩
      | (.resp res, env') =>
        if resOk res.status then
          let token : Option String :=
            match jsonParse res.body with
            | some data => extractToken data
            | none => some (stripQuotes res.body.trim)
          match token with
          | some t =>
            if t = "" ∨ t.length < 10 then ⟨.error (.tokenNotFound res.body), st, env', 1⟩
            else ⟨.ok t, ⟨some t, now + 55 * 60 * 1000⟩, env', 1⟩
          | none => ⟨.error (.tokenNotFound res.body), st, env', 1⟩
        else ⟨.error (.authError res.status res.body), st, env', 1⟩

/-- The result of `treolan`: outcome, final state, remaining oracle, login
fetches performed, and the bearer tokens attached to the gateway requests, in
order (one entry per upstream attempt). -/
structure CallRes where
  result : Except JsError Json
  st : St
  env : List FetchResult
  loginFetches : Nat
  bearers : List String
deriving DecidableEq

/-- index.js lines 69-91: `treolan(method, path, body, params)` — get a token,
fetch with the bearer header, on 401 clear the cache and retry the whole call
by recursion, on any other non-success throw `Treolan <status>: <body>`, on
success parse the JSON body.  The recursion is fuelled; every recursive call
consumes at least one oracle entry, so starting with `env.length + 1` fuel
(see `treolan` below) the zero-fuel case is unreachable. -/
def treolanGo : Nat → Config → Nat → St → List FetchResult → CallRes
  | 0, _, _, st, env => ⟨.error (.fetchFailed "fetch failed: no response"), st, env, 0, []⟩
  | fuel + 1, cfg, now, st, env =>
    match getToken cfg now st env with
    | ⟨.error e, st1, env1, k⟩ => ⟨.error e, st1, env1, k, []⟩
    | ⟨.ok t, st1, env1, k⟩ =>
      match pullFetch env1 with
      | (.err m, env2) => ⟨.error (.fetchFailed m), st1, env2, k, [t]⟩
      | (.resp r, env2) =>
        if r.status = 401 then
          let rc := treolanGo fuel cfg now ⟨none, 0⟩ env2
          ⟨rc.result, rc.st, rc.env, k + rc.loginFetches, t :: rc.bearers⟩
        else if resOk r.status then
          match jsonParse r.body with
          | some j => ⟨.ok j, st1, env2, k, [t]⟩
          | none => ⟨.error (.badJson r.body), st1, env2, k, [t]⟩
        else ⟨.error (.treolanError r.status r.body), st1, env2, k, [t]⟩

/-- One call through the gateway, with enough fuel for the whole oracle. -/
def treolan (cfg : Config) (now : Nat) (st : St) (env : List FetchResult) : CallRes :=
  treolanGo (env.length + 1) cfg now st env

/-! ### Specification-side characterisation of the candidate-path loop

These definitions restate, in the spec's words, when one scripted fetch
outcome "yields a recognizable token" and what `lastError` text a failed
attempt leaves behind; they are compared with `getTokenLoop` in the theorems
for claim C7. -/

/-- The fetch outcome the loop would see at position `i` of the oracle. -/
def envAt (env : List FetchResult) (i : Nat) : FetchResult :=
  env.getD i (.err "fetch failed: no response")

/-- A fetch outcome yields a recognizable token when the response is
successful, its body parses, the extracted token is a non-empty string, and
its length exceeds 10. -/
def recognizes : FetchResult → Option String
  | .err _ => none
  | .resp res =>
    if resOk res.status then
      match jsonParse res.body with
      | none => none
      | some data =>
        match extractToken data with
        | some t => if t ≠ "" ∧ 10 < t.length then some t else none
        | none => none
    else none

/-- The `lastError` update a failed attempt on `path` performs: a rejected
fetch or a response records a message, except the `continue` taken when a
successful response fails to parse, which leaves `lastError` untouched. -/
def attemptErr (path : String) : FetchResult → Option String
  | .err e => some (path ++ " → " ++ e)
  | .resp res =>
    if resOk res.status ∧ jsonParse res.body = none then none
    else some (attemptMsg path res.status)

/-- The `lastError` value accumulated over a sequence of failed attempts. -/
def lastErrTrace (le : String) : List (String × FetchResult) → String
  | [] => le
  | (p, fr) :: rest => lastErrTrace ((attemptErr p fr).getD le) rest

/-- The first `n` fetch outcomes the loop would consume. -/
def envTake : List FetchResult → Nat → List FetchResult
  | _, 0 => []
  | env, n + 1 => envAt env 0 :: envTake env.tail n

theorem envAt_tail (env : List FetchResult) (i : Nat) :
    envAt env.tail i = envAt env (i + 1) := by
  cases env <;> simp [envAt]

theorem pullFetch_fst (env : List FetchResult) : (pullFetch env).1 = envAt env 0 := by
  cases env <;> simp [pullFetch, envAt]

theorem pullFetch_snd (env : List FetchResult) : (pullFetch env).2 = env.tail := by
  cases env <;> simp [pullFetch]

theorem lastErrTrace_concat (le : String) (l : List (String × FetchResult))
    (p : String) (fr : FetchResult) :
    lastErrTrace le (l ++ [(p, fr)]) = (attemptErr p fr).getD (lastErrTrace le l) := by
  induction l generalizing le with
  | nil => rfl
  | cons hd tl ih => cases hd; simp [lastErrTrace, ih]

/-- One iteration of the candidate-path loop, characterised by `recognizes`
and `attemptErr`. -/
theorem getTokenLoop_cons (now : Nat) (st : St) (p : String) (ps : List String)
    (env : List FetchResult) (le : String) :
    getTokenLoop now st (p :: ps) env le =
      match recognizes (envAt env 0) with
      | some t => ⟨.ok t, ⟨some t, now + 55 * 60 * 1000⟩, env.tail, 1⟩
      | none => bump (getTokenLoop now st ps env.tail ((attemptErr p (envAt env 0)).getD le)) := by
  rcases env with _ | ⟨fr, rest⟩
  · simp [getTokenLoop, pullFetch, envAt, recognizes, attemptErr]
  · rcases fr with res | e
    · cases hok : resOk res.status with
      | false => simp [getTokenLoop, pullFetch, envAt, recognizes, attemptErr, hok]
      | true =>
        cases hp : jsonParse res.body with
        | none => simp [getTokenLoop, pullFetch, envAt, recognizes, attemptErr, hok, hp]
        | some data =>
          cases he : extractToken data with
          | none => simp [getTokenLoop, pullFetch, envAt, recognizes, attemptErr, hok, hp, he]
          | some t =>
            by_cases hc : t ≠ "" ∧ 10 < t.length <;>
              simp [getTokenLoop, pullFetch, envAt, recognizes, attemptErr, hok, hp, he, hc]
    · simp [getTokenLoop, pullFetch, envAt, recognizes, attemptErr]

theorem tail_drop' (l : List FetchResult) (n : Nat) : l.tail.drop n = l.drop (n + 1) := by
  cases l <;> simp

/-- A recognised token is non-empty and longer than 10 characters. -/
theorem recognizes_some {fr : FetchResult} {t : String} (h : recognizes fr = some t) :
    t ≠ "" ∧ 10 < t.length := by
  cases fr with
  | err e => simp [recognizes] at h
  | resp res =>
    simp only [recognizes] at h
    split at h
    · split at h
      · simp at h
      · split at h
        · split at h
          · simp only [Option.some.injEq] at h
            subst h
            assumption
          · simp at h
        · simp at h
    · simp at h

/-- If the first `i` attempts are not recognised and attempt `i` is, the loop
returns that token, caches it with a 55-minute expiry, and stops after
`i + 1` fetches — later candidate paths are never tried. -/
theorem getTokenLoop_success (now : Nat) (st : St) (t : String) :
    ∀ (i : Nat) (ps : List String) (env : List FetchResult) (le : String),
      i < ps.length →
      (∀ j, j < i → recognizes (envAt env j) = none) →
      recognizes (envAt env i) = some t →
      getTokenLoop now st ps env le
        = ⟨.ok t, ⟨some t, now + 55 * 60 * 1000⟩, env.drop (i + 1), i + 1⟩ := by
  intro i
  induction i with
  | zero =>
    intro ps env le hlen hmin hrec
    cases ps with
    | nil => simp at hlen
    | cons p ps' =>
      rw [getTokenLoop_cons, hrec]
      simp [List.drop_one]
  | succ n ih =>
    intro ps env le hlen hmin hrec
    cases ps with
    | nil => simp at hlen
    | cons p ps' =>
      rw [getTokenLoop_cons, hmin 0 (Nat.succ_pos n)]
      rw [ih ps' env.tail ((attemptErr p (envAt env 0)).getD le) (by simpa using hlen)
            (fun j hj => by rw [envAt_tail]; exact hmin (j + 1) (by omega))
            (by rw [envAt_tail]; exact hrec)]
      simp [bump, tail_drop']

/-- If no attempt yields a recognizable token, the loop tries every candidate
path once and throws, carrying the accumulated `lastError`. -/
theorem getTokenLoop_allfail (now : Nat) (st : St) :
    ∀ (ps : List String) (env : List FetchResult) (le : String),
      (∀ j, j < ps.length → recognizes (envAt env j) = none) →
      getTokenLoop now st ps env le
        = ⟨.error (.tokenNotObtained (lastErrTrace le (ps.zip (envTake env ps.length)))),
           st, env.drop ps.length, ps.length⟩ := by
  intro ps
  induction ps with
  | nil =>
    intro env le h
    simp [getTokenLoop, lastErrTrace, envTake]
  | cons p ps' ih =>
    intro env le h
    rw [getTokenLoop_cons, h 0 (by simp)]
    rw [ih env.tail ((attemptErr p (envAt env 0)).getD le)
          (fun j hj => by rw [envAt_tail]; exact h (j + 1) (by simpa using hj))]
    simp [bump, envTake, lastErrTrace, tail_drop', List.zip]

/-- A successful loop run caches exactly the returned token, with a non-empty
value. -/
theorem getTokenLoop_ok (now : Nat) (st : St) :
    ∀ (ps : List String) (env : List FetchResult) (le : String) (t : String),
      (getTokenLoop now st ps env le).result = .ok t →
      (getTokenLoop now st ps env le).st = ⟨some t, now + 55 * 60 * 1000⟩ ∧ t ≠ "" := by
  intro ps
  induction ps with
  | nil => intro env le t h; simp [getTokenLoop] at h
  | cons p ps' ih =>
    intro env le t h
    rw [getTokenLoop_cons] at h ⊢
    cases hrec : recognizes (envAt env 0) with
    | some t0 =>
      rw [hrec] at h
      obtain rfl : t0 = t := by simpa using h
      exact ⟨rfl, (recognizes_some hrec).1⟩
    | none =>
      rw [hrec] at h
      exact ih _ _ t h

/-- A successful `getToken` leaves the returned token in the cache, and that
token is non-empty (it is either the already-cached value, which passed the
truthiness check, or a freshly recognised one of length over 10). -/
theorem getToken_ok (cfg : Config) (now : Nat) (st : St) (env : List FetchResult)
    (t : String) (h : (getToken cfg now st env).result = .ok t) :
    (getToken cfg now st env).st.cachedToken = some t ∧ t ≠ "" := by
  unfold getToken at h ⊢
  cases hc : st.cachedToken with
  | some t0 =>
    rw [hc] at h
    replace h : (if t0 ≠ "" ∧ now < st.tokenExpires then (⟨.ok t0, st, env, 0⟩ : TokRes)
        else getTokenAuth cfg now st env).result = .ok t := h
    show (if t0 ≠ "" ∧ now < st.tokenExpires then (⟨.ok t0, st, env, 0⟩ : TokRes)
        else getTokenAuth cfg now st env).st.cachedToken = some t ∧ t ≠ ""
    by_cases hcond : t0 ≠ "" ∧ now < st.tokenExpires
    · rw [if_pos hcond] at h ⊢
      obtain rfl : t0 = t := by simpa using h
      exact ⟨hc, hcond.1⟩
    · rw [if_neg hcond] at h ⊢
      unfold getTokenAuth at h ⊢
      by_cases hcred : cfg.login = "" ∨ cfg.password = ""
      · rw [if_pos hcred] at h; simp at h
      · rw [if_neg hcred] at h ⊢
        obtain ⟨h1, h2⟩ := getTokenLoop_ok now st authUrls env "" t h
        exact ⟨by rw [h1], h2⟩
  | none =>
    rw [hc] at h
    replace h : (getTokenAuth cfg now st env).result = .ok t := h
    show (getTokenAuth cfg now st env).st.cachedToken = some t ∧ t ≠ ""
    unfold getTokenAuth at h ⊢
    by_cases hcred : cfg.login = "" ∨ cfg.password = ""
    · rw [if_pos hcred] at h; simp at h
    · rw [if_neg hcred] at h ⊢
      obtain ⟨h1, h2⟩ := getTokenLoop_ok now st authUrls env "" t h
      exact ⟨by rw [h1], h2⟩

/-! ### Concrete login-response bodies used by the claims -/

/-- The spec's example login body: a JSON object whose `access_token` field is
the 10-character token `abc123xyz0`. -/
def bodyAbc10 : String := "\x7b\"access_token\":\"abc123xyz0\"\x7d"

/-- The same shape with an 11-character token. -/
def bodyAbc11 : String := "\x7b\"access_token\":\"abc123xyz05\"\x7d"

/-- A login body that is a bare quoted JSON string literal. -/
def bodyQuoted : String := "\"tok_9999999999\""

/-- A login body whose token is below the minimum length threshold. -/
def bodyAb : String := "\x7b\"access_token\":\"ab\"\x7d"

/-- A login body with a valid fresh token under the `token` field. -/
def tokBody1 : String := "\x7b\"token\":\"tok_fresh_1111\"\x7d"

def tokBody2 : String := "\x7b\"token\":\"tok_fresh_2222\"\x7d"

def tokBody3 : String := "\x7b\"token\":\"tok_fresh_3333\"\x7d"

/-- An ordinary successful upstream JSON payload. -/
def dataBody : String := "\x7b\"ok\":\"yes\"\x7d"

/-! ### Claim theorems -/

/-- The cache-hit behaviour of `getToken`, shared by several theorems below:
a truthy cached token with a future expiry is returned unchanged at no cost. -/
theorem getToken_cache_hit (cfg : Config) (now : Nat) (st : St)
    (env : List FetchResult) (t : String) (hc : st.cachedToken = some t)
    (hne : t ≠ "") (hexp : now < st.tokenExpires) :
    getToken cfg now st env = ⟨.ok t, st, env, 0⟩ := by
  unfold getToken
  rw [hc]
  show (if t ≠ "" ∧ now < st.tokenExpires then (⟨.ok t, st, env, 0⟩ : TokRes)
      else getTokenAuth cfg now st env) = _
  rw [if_pos ⟨hne, hexp⟩]

/-- C2: for every state with a cached (non-null, truthy) token whose recorded
expiry lies strictly in the future, `getToken` returns the cached value with
the state unchanged and zero network calls (the oracle is untouched and the
fetch count is 0).  The `t ≠ ""` hypothesis restates the code's truthiness
check; every token the program ever caches has length over 10 (see
`getToken_ok`), so it excludes no reachable state. -/
theorem cache_hit_returns_cached (cfg : Config) (now : Nat) (st : St)
    (env : List FetchResult) (t : String) (hc : st.cachedToken = some t)
    (hne : t ≠ "") (hexp : now < st.tokenExpires) :
    getToken cfg now st env = ⟨.ok t, st, env, 0⟩ :=
  getToken_cache_hit cfg now st env t hc hne hexp

theorem cache_hit_returns_cached_witness :
    getToken ⟨"u", "p"⟩ 500 ⟨some "tok_cached_00", 1000⟩ []
      = ⟨.ok "tok_cached_00", ⟨some "tok_cached_00", 1000⟩, [], 0⟩ :=
  cache_hit_returns_cached ⟨"u", "p"⟩ 500 ⟨some "tok_cached_00", 1000⟩ []
    "tok_cached_00" rfl (by decide) (by decide)

/-- C10: the cache check precedes the credential check — with a valid cached
token, `getToken` succeeds even when both configured credentials are the
empty string, so a missing credential is only reported once the cache is
absent or expired. -/
theorem cache_checked_before_credentials (now : Nat) (st : St)
    (env : List FetchResult) (t : String) (hc : st.cachedToken = some t)
    (hne : t ≠ "") (hexp : now < st.tokenExpires) :
    getToken ⟨"", ""⟩ now st env = ⟨.ok t, st, env, 0⟩ := by
  unfold getToken
  rw [hc]
  show (if t ≠ "" ∧ now < st.tokenExpires then (⟨.ok t, st, env, 0⟩ : TokRes)
      else getTokenAuth ⟨"", ""⟩ now st env) = _
  rw [if_pos ⟨hne, hexp⟩]

theorem cache_checked_before_credentials_witness :
    getToken ⟨"", ""⟩ 7 ⟨some "tok_cached_42", 99⟩ []
      = ⟨.ok "tok_cached_42", ⟨some "tok_cached_42", 99⟩, [], 0⟩ :=
  cache_checked_before_credentials 7 ⟨some "tok_cached_42", 99⟩ []
    "tok_cached_42" rfl (by decide) (by decide)

/-- C6: when the cache is absent or expired and either credential is the empty
string, `getToken` fails at once with the configuration error naming
`TREOLAN_LOGIN` and `TREOLAN_PASSWORD`, performing zero network calls and
leaving the state unchanged. -/
theorem missing_credentials_fail_fast (cfg : Config) (now : Nat) (st : St)
    (env : List FetchResult) (hmiss : cfg.login = "" ∨ cfg.password = "")
    (hstale : st.cachedToken = none ∨ st.tokenExpires ≤ now) :
    getToken cfg now st env
      = ⟨.error (.configError "TREOLAN_LOGIN и TREOLAN_PASSWORD не заданы в Variables"),
         st, env, 0⟩ := by
  unfold getToken
  cases hc : st.cachedToken with
  | none =>
    unfold getTokenAuth
    rw [if_pos hmiss]
  | some t =>
    have hno : ¬(t ≠ "" ∧ now < st.tokenExpires) := by
      rcases hstale with h | h
      · rw [hc] at h; cases h
      · rintro ⟨-, hlt⟩; omega
    show (if t ≠ "" ∧ now < st.tokenExpires then (⟨.ok t, st, env, 0⟩ : TokRes)
        else getTokenAuth cfg now st env) = _
    rw [if_neg hno]
    unfold getTokenAuth
    rw [if_pos hmiss]

theorem missing_credentials_fail_fast_witness :
    getToken ⟨"", "p"⟩ 3 ⟨none, 0⟩ [.resp ⟨200, tokBody1⟩]
      = ⟨.error (.configError "TREOLAN_LOGIN и TREOLAN_PASSWORD не заданы в Variables"),
         ⟨none, 0⟩, [.resp ⟨200, tokBody1⟩], 0⟩ :=
  missing_credentials_fail_fast ⟨"", "p"⟩ 3 ⟨none, 0⟩ [.resp ⟨200, tokBody1⟩]
    (Or.inl rfl) (Or.inl rfl)

/-- C3 counterexample: in index.js the plausibility check is `token.length >
10`, so the exactly-10-character token `abc123xyz0` from the spec's example
body is rejected on every candidate path: `getToken` throws instead of
returning it, and nothing is cached. -/
theorem ten_char_token_rejected :
    getToken ⟨"u", "p"⟩ 1000 ⟨none, 0⟩ (List.replicate 5 (.resp ⟨200, bodyAbc10⟩))
      = ⟨.error (.tokenNotObtained "/Account/Login → 200"), ⟨none, 0⟩, [], 5⟩
    ∧ (getToken ⟨"u", "p"⟩ 1000 ⟨none, 0⟩
        (List.replicate 5 (.resp ⟨200, bodyAbc10⟩))).result ≠ .ok "abc123xyz0" :=
  ⟨by decide, by decide⟩

/-- C3 amended: index.js's `getToken` requires a token length strictly greater
than 10, so it accepts an 11-character token, caching it with expiry
`now + 55*60*1000` and returning it; the part_000 variant, whose check is
`token.length < 10`, does accept the 10-character `abc123xyz0` and caches it
with the same 55-minute expiry. -/
theorem token_length_threshold :
    getToken ⟨"u", "p"⟩ 1000 ⟨none, 0⟩ [.resp ⟨200, bodyAbc11⟩]
      = ⟨.ok "abc123xyz05", ⟨some "abc123xyz05", 1000 + 55 * 60 * 1000⟩, [], 1⟩
    ∧ getToken000 ⟨"u", "p"⟩ 1000 ⟨none, 0⟩ [.resp ⟨200, bodyAbc10⟩]
      = ⟨.ok "abc123xyz0", ⟨some "abc123xyz0", 1000 + 55 * 60 * 1000⟩, [], 1⟩ :=
  ⟨by decide, by decide⟩

/-- C4: a successful login response whose token `ab` is below the minimum
length threshold is not cached, and `getToken` fails: part_000 with its
token-not-found (decode) error carrying the body, index.js by rejecting the
token on every candidate path and surfacing the last attempt. -/
theorem short_token_not_cached :
    getToken000 ⟨"u", "p"⟩ 1000 ⟨none, 0⟩ [.resp ⟨200, bodyAb⟩]
      = ⟨.error (.tokenNotFound bodyAb), ⟨none, 0⟩, [], 1⟩
    ∧ getToken ⟨"u", "p"⟩ 1000 ⟨none, 0⟩ (List.replicate 5 (.resp ⟨200, bodyAb⟩))
      = ⟨.error (.tokenNotObtained "/Account/Login → 200"), ⟨none, 0⟩, [], 5⟩ :=
  ⟨by decide, by decide⟩

/-- C5: a successful login response whose body is the bare quoted string
`"tok_9999999999"` yields the token without the surrounding quotes, cached
with a 55-minute expiry — in index.js (via `JSON.parse` and the
`typeof data === 'string'` fallback) and in the part_001 variant alike.  The
final conjunct records that the body is exactly the returned token wrapped in
quotes. -/
theorem quoted_string_token :
    getToken ⟨"u", "p"⟩ 1000 ⟨none, 0⟩ [.resp ⟨200, bodyQuoted⟩]
      = ⟨.ok "tok_9999999999", ⟨some "tok_9999999999", 1000 + 55 * 60 * 1000⟩, [], 1⟩
    ∧ getToken001 ⟨"u", "p"⟩ 1000 ⟨none, 0⟩ [.resp ⟨200, bodyQuoted⟩]
      = ⟨.ok "tok_9999999999", ⟨some "tok_9999999999", 1000 + 55 * 60 * 1000⟩, [], 1⟩
    ∧ bodyQuoted = "\"" ++ "tok_9999999999" ++ "\"" :=
  ⟨by decide, by decide, by decide⟩

/-- C8: when token acquisition succeeds and the first upstream attempt returns
a non-success status other than 401, `treolan` fails at once with an error
carrying that status and the response body: exactly one bearer header was
sent (no retry, no second upstream request) and no further login fetch
happened. -/
theorem non_401_fails_immediately (cfg : Config) (now : Nat) (st st1 : St)
    (env env1 env2 : List FetchResult) (t b : String) (k s : Nat)
    (hget : getToken cfg now st env = ⟨.ok t, st1, env1, k⟩)
    (henv : env1 = .resp ⟨s, b⟩ :: env2)
    (hnotok : resOk s = false) (h401 : s ≠ 401) :
    treolan cfg now st env = ⟨.error (.treolanError s b), st1, env2, k, [t]⟩ := by
  unfold treolan
  show treolanGo (env.length + 1) cfg now st env = _
  simp only [treolanGo, hget, henv, pullFetch]
  rw [if_neg h401, hnotok]
  simp

theorem non_401_fails_immediately_witness :
    treolan ⟨"u", "p"⟩ 0 ⟨some "tok_cached_77", 100⟩ [.resp ⟨500, "boom"⟩]
      = ⟨.error (.treolanError 500 "boom"), ⟨some "tok_cached_77", 100⟩, [], 0,
         ["tok_cached_77"]⟩ :=
  non_401_fails_immediately ⟨"u", "p"⟩ 0 ⟨some "tok_cached_77", 100⟩
    ⟨some "tok_cached_77", 100⟩ [.resp ⟨500, "boom"⟩] [.resp ⟨500, "boom"⟩] []
    "tok_cached_77" "boom" 0 500 (by decide) rfl (by decide) (by decide)

/-- C9: two sequential successful calls within the token's validity window.
The first call (however its token was obtained) attaches bearer `t` and
leaves the state `st1`, which caches exactly `t`; the second call, started
while `now2` is still before the cached expiry, attaches the same bearer `t`,
performs zero login fetches, and leaves the state untouched — a pure cache
hit, with no second login exchange between the two calls. -/
theorem sequential_calls_reuse_token (cfg : Config) (now now2 : Nat) (st st1 : St)
    (env env1 env2 env3 : List FetchResult) (t b b2 : String) (k : Nat) (j j2 : Json)
    (hget : getToken cfg now st env = ⟨.ok t, st1, env1, k⟩)
    (h1 : env1 = .resp ⟨200, b⟩ :: env2) (hj : jsonParse b = some j)
    (hval : now2 < st1.tokenExpires)
    (h2 : env2 = .resp ⟨200, b2⟩ :: env3) (hj2 : jsonParse b2 = some j2) :
    treolan cfg now st env = ⟨.ok j, st1, env2, k, [t]⟩
    ∧ treolan cfg now2 st1 env2 = ⟨.ok j2, st1, env3, 0, [t]⟩ := by
  have hst := getToken_ok cfg now st env t (by rw [hget])
  rw [hget] at hst
  have hcache : getToken cfg now2 st1 env2 = ⟨.ok t, st1, env2, 0⟩ :=
    getToken_cache_hit cfg now2 st1 env2 t hst.1 hst.2 hval
  subst h2
  subst h1
  constructor
  · unfold treolan
    show treolanGo (env.length + 1) cfg now st env = _
    simp only [treolanGo, hget, pullFetch]
    rw [if_neg (by omega : (200 : Nat) ≠ 401)]
    simp [resOk, hj]
  · unfold treolan
    simp only [treolanGo, hcache, pullFetch]
    rw [if_neg (by omega : (200 : Nat) ≠ 401)]
    simp [resOk, hj2]

theorem sequential_calls_reuse_token_witness :
    treolan ⟨"u", "p"⟩ 0 ⟨some "tok_cached_42", 1000⟩
        [.resp ⟨200, dataBody⟩, .resp ⟨200, dataBody⟩]
      = ⟨.ok (.obj [("ok", "yes")]), ⟨some "tok_cached_42", 1000⟩,
         [.resp ⟨200, dataBody⟩], 0, ["tok_cached_42"]⟩
    ∧ treolan ⟨"u", "p"⟩ 10 ⟨some "tok_cached_42", 1000⟩ [.resp ⟨200, dataBody⟩]
      = ⟨.ok (.obj [("ok", "yes")]), ⟨some "tok_cached_42", 1000⟩, [], 0,
         ["tok_cached_42"]⟩ :=
  sequential_calls_reuse_token ⟨"u", "p"⟩ 0 10 ⟨some "tok_cached_42", 1000⟩
    ⟨some "tok_cached_42", 1000⟩ [.resp ⟨200, dataBody⟩, .resp ⟨200, dataBody⟩]
    [.resp ⟨200, dataBody⟩, .resp ⟨200, dataBody⟩] [.resp ⟨200, dataBody⟩] []
    "tok_cached_42" dataBody dataBody 0 (.obj [("ok", "yes")]) (.obj [("ok", "yes")])
    (by decide) rfl (by decide) (by decide) rfl (by decide)

/-- The network script refuting C1: the gateway attempt returns 401 three
times in a row, each time followed by a successful login exchange, before a
final 200. -/
def envC1 : List FetchResult :=
  [.resp ⟨401, "unauth"⟩, .resp ⟨200, tokBody1⟩,
   .resp ⟨401, "unauth"⟩, .resp ⟨200, tokBody2⟩,
   .resp ⟨401, "unauth"⟩, .resp ⟨200, tokBody3⟩,
   .resp ⟨200, dataBody⟩]

/-- C1 counterexample: with `envC1`, the first upstream attempt returns 401
and the retry returns 401 again — yet the call does not fail with an error
naming status 401: the gateway keeps invalidating and retrying (four bearer
headers are sent, three fresh logins are performed) and ultimately succeeds.
This refutes both "retries exactly once" and "a second 401 is a hard
failure". -/
theorem second_401_still_retried :
    treolan ⟨"u", "p"⟩ 0 ⟨some "tok_cached_00", 100⟩ envC1
      = ⟨.ok (.obj [("ok", "yes")]), ⟨some "tok_fresh_3333", 55 * 60 * 1000⟩, [], 3,
         ["tok_cached_00", "tok_fresh_1111", "tok_fresh_2222", "tok_fresh_3333"]⟩ := by
  decide

/-- C1 amended: on a 401 the gateway invalidates the cached token and retries
the entire call; this holds at every recursion depth, so a second 401 leads
to a further invalidate-and-retry instead of a hard 401 failure — the
recursion is bounded only by the environment, never by a retry counter. -/
theorem retry_on_every_401 (cfg : Config) (now fuel : Nat) (st st1 : St)
    (env env1 env2 : List FetchResult) (t b : String) (k : Nat)
    (hget : getToken cfg now st env = ⟨.ok t, st1, env1, k⟩)
    (henv : env1 = .resp ⟨401, b⟩ :: env2) :
    treolanGo (fuel + 1) cfg now st env
      = ⟨(treolanGo fuel cfg now ⟨none, 0⟩ env2).result,
         (treolanGo fuel cfg now ⟨none, 0⟩ env2).st,
         (treolanGo fuel cfg now ⟨none, 0⟩ env2).env,
         k + (treolanGo fuel cfg now ⟨none, 0⟩ env2).loginFetches,
         t :: (treolanGo fuel cfg now ⟨none, 0⟩ env2).bearers⟩ := by
  subst henv
  simp only [treolanGo, hget, pullFetch]
  simp

theorem retry_on_every_401_witness :
    treolanGo 1 ⟨"u", "p"⟩ 0 ⟨some "tok_cached_00", 100⟩ [.resp ⟨401, "x"⟩]
      = ⟨(treolanGo 0 ⟨"u", "p"⟩ 0 ⟨none, 0⟩ []).result,
         (treolanGo 0 ⟨"u", "p"⟩ 0 ⟨none, 0⟩ []).st,
         (treolanGo 0 ⟨"u", "p"⟩ 0 ⟨none, 0⟩ []).env,
         0 + (treolanGo 0 ⟨"u", "p"⟩ 0 ⟨none, 0⟩ []).loginFetches,
         "tok_cached_00" :: (treolanGo 0 ⟨"u", "p"⟩ 0 ⟨none, 0⟩ []).bearers⟩ :=
  retry_on_every_401 ⟨"u", "p"⟩ 0 0 ⟨some "tok_cached_00", 100⟩
    ⟨some "tok_cached_00", 100⟩ [.resp ⟨401, "x"⟩] [.resp ⟨401, "x"⟩] []
    "tok_cached_00" "x" 0 (by decide) rfl

/-- C7: when `getToken` must authenticate (empty cache, credentials present),
it walks the fixed ordered list `authUrls`.  First conjunct: if attempt `i`
is the first whose response yields a recognizable token, that token is cached
and returned after exactly `i + 1` fetches — later candidates are never
tried.  Second conjunct: if no attempt yields a token, every candidate is
tried once and the call fails with `tokenNotObtained`, carrying the
accumulated `lastError`.  Third conjunct: whenever the final attempt records
a failure message (every failure except the `continue` on an ok-but-unparseable
body does), the surfaced error carries exactly that last failure. -/
theorem candidate_paths_in_order (cfg : Config) (now : Nat) (env : List FetchResult)
    (hl : cfg.login ≠ "") (hp : cfg.password ≠ "") :
    (∀ i t, i < authUrls.length →
        (∀ j, j < i → recognizes (envAt env j) = none) →
        recognizes (envAt env i) = some t →
        getToken cfg now ⟨none, 0⟩ env
          = ⟨.ok t, ⟨some t, now + 55 * 60 * 1000⟩, env.drop (i + 1), i + 1⟩)
    ∧ ((∀ j, j < authUrls.length → recognizes (envAt env j) = none) →
        getToken cfg now ⟨none, 0⟩ env
          = ⟨.error (.tokenNotObtained
                (lastErrTrace "" (authUrls.zip (envTake env authUrls.length)))),
             ⟨none, 0⟩, env.drop authUrls.length, authUrls.length⟩)
    ∧ (∀ m, (∀ j, j < authUrls.length → recognizes (envAt env j) = none) →
        attemptErr "/Account/Login" (envAt env 4) = some m →
        (getToken cfg now ⟨none, 0⟩ env).result = .error (.tokenNotObtained m)) := by
  have hauth : getToken cfg now ⟨none, 0⟩ env = getTokenLoop now ⟨none, 0⟩ authUrls env "" := by
    show getTokenAuth cfg now ⟨none, 0⟩ env = getTokenLoop now ⟨none, 0⟩ authUrls env ""
    unfold getTokenAuth
    rw [if_neg (by rintro (h | h); exacts [hl h, hp h])]
  refine ⟨?_, ?_, ?_⟩
  · intro i t hi hmin hrec
    rw [hauth]
    exact getTokenLoop_success now ⟨none, 0⟩ t i authUrls env "" hi hmin hrec
  · intro hall
    rw [hauth]
    exact getTokenLoop_allfail now ⟨none, 0⟩ authUrls env "" hall
  · intro m hall hlast
    rw [hauth, getTokenLoop_allfail now ⟨none, 0⟩ authUrls env "" hall]
    have h5 : envTake env authUrls.length
        = [envAt env 0, envAt env.tail 0, envAt env.tail.tail 0,
           envAt env.tail.tail.tail 0, envAt env.tail.tail.tail.tail 0] := rfl
    simp only [envAt_tail] at h5
    norm_num at h5
    show Except.error (JsError.tokenNotObtained
        (lastErrTrace "" (authUrls.zip (envTake env authUrls.length))))
      = Except.error (JsError.tokenNotObtained m)
    rw [h5]
    have hzip : authUrls.zip
          [envAt env 0, envAt env 1, envAt env 2, envAt env 3, envAt env 4]
        = [("/Auth/GetToken", envAt env 0), ("/Auth/Login", envAt env 1),
           ("/Auth/Token", envAt env 2), ("/Account/GetToken", envAt env 3)]
          ++ [("/Account/Login", envAt env 4)] := rfl
    rw [hzip, lastErrTrace_concat, hlast]
    rfl

theorem candidate_paths_in_order_witness :
    getToken ⟨"u", "p"⟩ 0 ⟨none, 0⟩ [.resp ⟨500, "e"⟩, .resp ⟨200, tokBody1⟩]
      = ⟨.ok "tok_fresh_1111", ⟨some "tok_fresh_1111", 0 + 55 * 60 * 1000⟩, [], 2⟩ :=
  (candidate_paths_in_order ⟨"u", "p"⟩ 0 [.resp ⟨500, "e"⟩, .resp ⟨200, tokBody1⟩]
      (by decide) (by decide)).1 1 "tok_fresh_1111" (by decide)
    (by intro j hj; have hj0 : j = 0 := Nat.lt_one_iff.mp hj; subst hj0; decide) (by decide)
